import Mathlib

/-!
Verification of the expiring share-link subsystem of the secure file-sharing
backend (app/services/share_service.py, app/models/share_link.py,
app/schemas/share.py, app/core/redis.py).

The Redis fast store is modelled as a map from keys to a stored value plus its
remaining TTL in seconds; the relational table of share links is a map from
token to record.  Timestamps are integers (seconds).  Python truthiness of
optional values (`if data.get("max_downloads"):` is false for both None and 0,
`if not password:` is true for both None and "") is modelled explicitly.
-/

namespace SecureFileShare

/-- Truthiness of an optional integer as Python evaluates it:
`None` and `0` are falsy, every other integer is truthy. -/
def optIntTruthy : Option Int → Bool
  | none => false
  | some n => n != 0

/-- Truthiness of an optional string as Python evaluates it:
`None` and the empty string are falsy. -/
def optStrTruthy : Option String → Bool
  | none => false
  | some a => a != ""

/-- The JSON value stored in Redis under `share_link:<token>`
(`redis_data` built in ShareLinkService.create_share_link). -/
structure RedisData where
  file_id : Int
  filename : String
  content_type : String
  size : Int
  s3_key : String
  created_by : Int
  created_at : Int
  expires_at : Int
  max_downloads : Option Int
  download_count : Int
  password_hash : Option String
  requires_auth : Bool
  allowed_email : Option String
  deriving DecidableEq

/-- The durable ShareLink row (app/models/share_link.py).  The `expires_at`
column is declared `nullable=False`, so it is modelled as a plain integer;
`created_by_id` is nullable (`ondelete="SET NULL"`). -/
structure ShareLinkRec where
  token : String
  file_id : Int
  created_by_id : Option Int
  created_at : Int
  expires_at : Int
  max_downloads : Option Int
  download_count : Int
  password_hash : Option String
  is_active : Bool
  requires_auth : Bool
  allowed_email : Option String
  deriving DecidableEq

/-- ShareLink.is_expired: `datetime.utcnow() > self.expires_at`. -/
def ShareLinkRec.is_expired (l : ShareLinkRec) (now : Int) : Bool :=
  now > l.expires_at

/-- ShareLink.is_valid: not revoked, not expired, and the quota test
`if self.max_downloads and self.download_count >= self.max_downloads`,
where `self.max_downloads` is Python truthiness (None and 0 falsy). -/
def ShareLinkRec.is_valid (l : ShareLinkRec) (now : Int) : Bool :=
  if l.is_active = false then false
  else if l.is_expired now then false
  else if optIntTruthy l.max_downloads then
    if l.max_downloads.getD 0 ≤ l.download_count then false else true
  else true

/-- ShareLink.has_password: `self.password_hash is not None`. -/
def ShareLinkRec.has_password (l : ShareLinkRec) : Bool :=
  l.password_hash.isSome

/-- A user row, reduced to the fields the share service reads
(`user.id`, `user.email`, `user.role.name`; `role` is nullable). -/
structure UserRec where
  id : Int
  email : String
  role : Option String
  deriving DecidableEq

/-- A file row, reduced to the fields the share service reads. -/
structure FileRec where
  id : Int
  owner_id : Int
  filename : String
  content_type : String
  size : Int
  s3_key : String
  is_deleted : Bool
  deriving DecidableEq

/-- The Redis fast store: key to (stored value, remaining TTL in seconds).
Externally mutable; natural TTL expiry is modelled by comparing the store
at different observation points. -/
abbrev FastStore := String → Option (RedisData × Int)

/-- The share_links table, keyed by the unique token column. -/
abbrev LinksTable := String → Option ShareLinkRec

/-- The files table, keyed by primary key. -/
abbrev FilesTable := Int → Option FileRec

/-- RedisClient.get: returns the stored value only. -/
def fsGet (s : FastStore) (k : String) : Option RedisData :=
  (s k).map Prod.fst

/-- RedisClient.get_ttl: remaining TTL; a missing key reports a
non-positive sentinel (Redis returns -2). -/
def fsTTL (s : FastStore) (k : String) : Int :=
  match s k with
  | none => -2
  | some p => p.2

/-- RedisClient.set_with_expiry, modelled on its success path (the
exception branch is an environment failure outside the model). -/
def fsSet (s : FastStore) (k : String) (v : RedisData) (ttl : Int) : FastStore :=
  fun k2 => if k2 = k then some (v, ttl) else s k2

/-- RedisClient.delete. -/
def fsDelete (s : FastStore) (k : String) : FastStore :=
  fun k2 => if k2 = k then none else s k2

/-- Update of the share_links row for a token (ORM mutation + commit). -/
def dbSet (db : LinksTable) (t : String) (r : ShareLinkRec) : LinksTable :=
  fun t2 => if t2 = t then some r else db t2

/-- The Redis key for a token: `REDIS_PREFIX + token`. -/
def redisKey (token : String) : String := "share_link:" ++ token

/-- ShareLinkService.validate_share_link.  Reads Redis first; on a miss the
database row is consulted but every fallback path returns None.  On a hit the
quota is re-checked: a truthy `max_downloads` with
`download_count >= max_downloads` yields None. -/
def validate_share_link (now : Int) (fs : FastStore) (db : LinksTable)
    (token : String) : Option RedisData :=
  match fsGet fs (redisKey token) with
  | none =>
    match db token with
    | some db_link => if db_link.is_valid now = false then none else none
    | none => none
  | some data =>
    if optIntTruthy data.max_downloads then
      if data.max_downloads.getD 0 ≤ data.download_count then none else some data
    else some data

/-- The ShareLinkInfo response schema. -/
structure ShareLinkInfo where
  token : String
  file_id : Int
  filename : String
  content_type : String
  size : Int
  expires_at : Int
  is_valid : Bool
  download_count : Int
  max_downloads : Option Int
  has_password : Bool
  deriving DecidableEq

/-- ShareLinkService.get_share_link_info.  None models the HTTP 404 raised
when validate_share_link returns no data; otherwise the info is built with
`is_valid=True` and `has_password = password_hash is not None`. -/
def get_share_link_info (now : Int) (fs : FastStore) (db : LinksTable)
    (token : String) : Option ShareLinkInfo :=
  match validate_share_link now fs db token with
  | none => none
  | some data =>
    some { token := token, file_id := data.file_id, filename := data.filename,
           content_type := data.content_type, size := data.size,
           expires_at := data.expires_at, is_valid := true,
           download_count := data.download_count,
           max_downloads := data.max_downloads,
           has_password := data.password_hash.isSome }

/-- ShareLinkService.increment_download_count.  Returns False when the Redis
entry is gone or its remaining TTL is not positive; otherwise rewrites the
value with the counter bumped, reapplying the remaining TTL, and also bumps
the database row when present. -/
def increment_download_count (fs : FastStore) (db : LinksTable)
    (token : String) : Bool × FastStore × LinksTable :=
  match fsGet fs (redisKey token) with
  | none => (false, fs, db)
  | some data =>
    let ttl := fsTTL fs (redisKey token)
    if ttl ≤ 0 then (false, fs, db)
    else
      let fs2 := fsSet fs (redisKey token)
        { data with download_count := data.download_count + 1 } ttl
      let db2 :=
        match db token with
        | some db_link =>
          dbSet db token { db_link with download_count := db_link.download_count + 1 }
        | none => db
      (true, fs2, db2)

/-- The structured denial raised by download_via_share_link (the HTTP
exceptions, in source order). -/
inductive DownloadDenial
  | notFound
  | passwordRequired
  | invalidPassword
  | authRequired
  | forbidden
  deriving DecidableEq

/-- The dict download_via_share_link returns for streaming. -/
structure DownloadResult where
  file_id : Int
  filename : String
  content_type : String
  s3_key : String
  deriving DecidableEq

/-- ShareLinkService.download_via_share_link.  `checkpw` abstracts
bcrypt.checkpw.  The fast store is read twice — once inside
validate_share_link and once inside increment_download_count — and may have
changed in between by natural TTL expiry, so the two observations `fsV`
(at validation) and `fsI` (at increment) are distinct parameters.
The Python guards are sequential raises; the Boolean result of
increment_download_count is discarded by the source exactly as here. -/
def download_via_share_link (now : Int) (checkpw : String → String → Bool)
    (fsV fsI : FastStore) (db : LinksTable) (token : String)
    (password : Option String) (user : Option UserRec) :
    Except DownloadDenial DownloadResult × FastStore × LinksTable :=
  match validate_share_link now fsV db token with
  | none => (Except.error DownloadDenial.notFound, fsI, db)
  | some data =>
    if optStrTruthy data.password_hash && !(optStrTruthy password) then
      (Except.error DownloadDenial.passwordRequired, fsI, db)
    else if optStrTruthy data.password_hash
        && !(checkpw (password.getD "") (data.password_hash.getD "")) then
      (Except.error DownloadDenial.invalidPassword, fsI, db)
    else if data.requires_auth && user.isNone then
      (Except.error DownloadDenial.authRequired, fsI, db)
    else if optStrTruthy data.allowed_email
        && (match user with
            | none => true
            | some u => u.email != data.allowed_email.getD "") then
      (Except.error DownloadDenial.forbidden, fsI, db)
    else
      let inc := increment_download_count fsI db token
      (Except.ok { file_id := data.file_id, filename := data.filename,
                   content_type := data.content_type, s3_key := data.s3_key },
       inc.2.1, inc.2.2)

/-- The ShareLinkCreate request schema (app/schemas/share.py). -/
structure ShareLinkCreate where
  file_id : Int
  expiry_minutes : Int
  max_downloads : Option Int
  password : Option String
  requires_auth : Bool
  allowed_email : Option String
  deriving DecidableEq

/-- The pydantic field constraints on ShareLinkCreate:
`expiry_minutes` in [1, 43200], `max_downloads` at least 1 when present,
`password` at least one character when present. -/
def shareLinkCreateValid (ld : ShareLinkCreate) : Bool :=
  decide (1 ≤ ld.expiry_minutes) && decide (ld.expiry_minutes ≤ 43200)
  && (match ld.max_downloads with | none => true | some n => decide (1 ≤ n))
  && (match ld.password with | none => true | some p => decide (1 ≤ p.length))

/-- The errors create_share_link and its endpoint can raise: pydantic
validation failure (HTTP 422), file missing (404), not permitted (403). -/
inductive CreateError
  | validationFailed
  | fileNotFound
  | notPermitted
  deriving DecidableEq

/-- The dict create_share_link returns (the ShareLinkResponse fields). -/
structure CreateResult where
  token : String
  share_url : String
  file_id : Int
  filename : String
  expires_at : Int
  expires_in_minutes : Int
  max_downloads : Option Int
  has_password : Bool
  requires_auth : Bool
  created_at : Int
  deriving DecidableEq

/-- The file query in create_share_link:
`File.id == file_id AND File.is_deleted == False`. -/
def activeFile (files : FilesTable) (id : Int) : Option FileRec :=
  match files id with
  | some f => if f.is_deleted then none else some f
  | none => none

/-- ShareLinkService.create_share_link.  `hashpw` abstracts bcrypt.hashpw
with a fresh salt; `token` is the generated uuid4 hex.  Raises 404 when the
file is absent or soft-deleted, then 403 when the requester neither owns the
file nor has the admin role; otherwise writes the Redis entry with
TTL = expiry_minutes * 60 and inserts the database row. -/
def create_share_link (now : Int) (hashpw : String → String)
    (files : FilesTable) (fs : FastStore) (db : LinksTable)
    (token : String) (ld : ShareLinkCreate) (user : UserRec) :
    Except CreateError CreateResult × FastStore × LinksTable :=
  match activeFile files ld.file_id with
  | none => (Except.error CreateError.fileNotFound, fs, db)
  | some file =>
    if file.owner_id != user.id
        && (match user.role with | none => true | some r => r != "admin") then
      (Except.error CreateError.notPermitted, fs, db)
    else
      let expires_at := now + ld.expiry_minutes * 60
      let password_hash : Option String :=
        if optStrTruthy ld.password then some (hashpw (ld.password.getD ""))
        else none
      let redis_data : RedisData :=
        { file_id := file.id, filename := file.filename,
          content_type := file.content_type, size := file.size,
          s3_key := file.s3_key, created_by := user.id,
          created_at := now, expires_at := expires_at,
          max_downloads := ld.max_downloads, download_count := 0,
          password_hash := password_hash, requires_auth := ld.requires_auth,
          allowed_email := ld.allowed_email }
      let fs2 := fsSet fs (redisKey token) redis_data (ld.expiry_minutes * 60)
      let share_link : ShareLinkRec :=
        { token := token, file_id := file.id, created_by_id := some user.id,
          created_at := now, expires_at := expires_at,
          max_downloads := ld.max_downloads, download_count := 0,
          password_hash := password_hash, is_active := true,
          requires_auth := ld.requires_auth, allowed_email := ld.allowed_email }
      (Except.ok
        { token := token,
          share_url := "/api/v1/share/" ++ token ++ "/download",
          file_id := file.id, filename := file.filename,
          expires_at := expires_at, expires_in_minutes := ld.expiry_minutes,
          max_downloads := ld.max_downloads,
          has_password := password_hash.isSome,
          requires_auth := ld.requires_auth, created_at := now },
        fs2, dbSet db token share_link)

/-- The POST /share/ endpoint: FastAPI parses the body through
ShareLinkCreate before the handler body runs, so a constraint violation is
rejected (HTTP 422) before the service — and hence either store — is
touched. -/
def create_share_link_endpoint (now : Int) (hashpw : String → String)
    (files : FilesTable) (fs : FastStore) (db : LinksTable)
    (token : String) (ld : ShareLinkCreate) (user : UserRec) :
    Except CreateError CreateResult × FastStore × LinksTable :=
  if shareLinkCreateValid ld = false then
    (Except.error CreateError.validationFailed, fs, db)
  else create_share_link now hashpw files fs db token ld user

/-- The errors revoke_share_link can raise. -/
inductive RevokeError
  | linkNotFound
  | notPermitted
  deriving DecidableEq

/-- ShareLinkService.revoke_share_link.  404 when no row has the token; 403
when the requester is neither the creator nor admin; otherwise deletes the
Redis key, sets is_active = False on the row, and returns True. -/
def revoke_share_link (fs : FastStore) (db : LinksTable) (token : String)
    (user : UserRec) : Except RevokeError Bool × FastStore × LinksTable :=
  match db token with
  | none => (Except.error RevokeError.linkNotFound, fs, db)
  | some db_link =>
    if db_link.created_by_id != some user.id
        && (match user.role with | none => true | some r => r != "admin") then
      (Except.error RevokeError.notPermitted, fs, db)
    else
      (Except.ok true, fsDelete fs (redisKey token),
       dbSet db token { db_link with is_active := false })

/-- n successive calls of increment_download_count on the same token,
threading both stores. -/
def incrementIter (token : String) : Nat → FastStore × LinksTable →
    FastStore × LinksTable
  | 0, s => s
  | Nat.succ n, s =>
    let r := increment_download_count s.1 s.2 token
    incrementIter token n (r.2.1, r.2.2)

/-- A plain unprotected link value as stored in Redis: quota of two
downloads, none used yet. -/
def sampleData : RedisData :=
  { file_id := 7, filename := "a.txt", content_type := "text/plain", size := 3,
    s3_key := "k7", created_by := 1, created_at := 0, expires_at := 600,
    max_downloads := some 2, download_count := 0, password_hash := none,
    requires_auth := false, allowed_email := none }

/-- A fast store holding exactly the sample entry with 600 s left. -/
def sampleStore : FastStore :=
  fun k => if k = "share_link:tok1" then some (sampleData, 600) else none

/-- An empty fast store (the sample entry after natural expiry). -/
def emptyStore : FastStore := fun _ => none

/-- An empty share_links table. -/
def emptyTable : LinksTable := fun _ => none

/-- The ShareLinkInfo produced for the sample entry. -/
def sampleInfo : ShareLinkInfo :=
  { token := "tok1", file_id := 7, filename := "a.txt",
    content_type := "text/plain", size := 3, expires_at := 600,
    is_valid := true, download_count := 0, max_downloads := some 2,
    has_password := false }

/-- A durable row whose quota field is present but zero, which Python
truthiness treats as "no quota". -/
def zeroQuotaLink : ShareLinkRec :=
  { token := "t4", file_id := 1, created_by_id := some 1, created_at := 0,
    expires_at := 100, max_downloads := some 0, download_count := 0,
    password_hash := none, is_active := true, requires_auth := false,
    allowed_email := none }

/-- The validity predicate exactly as the specification words it:
active, not past expiry, and quota either absent or not yet reached.
Stated from the spec for comparison against the code's is_valid. -/
def isValidClaim (l : ShareLinkRec) (now : Int) : Prop :=
  l.is_active = true ∧ now ≤ l.expires_at ∧
    (l.max_downloads = none ∨ l.download_count < l.max_downloads.getD 0)

/-- A stand-in for bcrypt.checkpw: a password matches its own stored text. -/
def strEqCheck : String → String → Bool := fun p h => p == h

/-- A stand-in for bcrypt.hashpw. -/
def strHash : String → String := fun p => "h:" ++ p

/-- A second, different stand-in for bcrypt.hashpw. -/
def strHash2 : String → String := fun p => p ++ "!"

/-- The sample link value with a password hash set. -/
def pwData : RedisData := { sampleData with password_hash := some "hash1" }

/-- A fast store holding the password-protected entry. -/
def pwStore : FastStore :=
  fun k => if k = "share_link:tokp" then some (pwData, 600) else none

/-- The sample link value requiring authentication and restricted to one
email. -/
def authData : RedisData :=
  { sampleData with requires_auth := true, allowed_email := some "a@x.com" }

/-- A fast store holding the auth-restricted entry. -/
def authStore : FastStore :=
  fun k => if k = "share_link:toka" then some (authData, 600) else none

/-- The durable row matching the sample entry, created by user 1. -/
def sampleLink : ShareLinkRec :=
  { token := "tok1", file_id := 7, created_by_id := some 1, created_at := 0,
    expires_at := 600, max_downloads := some 2, download_count := 0,
    password_hash := none, is_active := true, requires_auth := false,
    allowed_email := none }

/-- A share_links table holding exactly the sample row. -/
def sampleTable : LinksTable :=
  fun t => if t = "tok1" then some sampleLink else none

/-- The user who created the sample link, with no role row. -/
def creatorUser : UserRec := { id := 1, email := "u@x.com", role := none }

/-- A user who owns the sample file. -/
def ownerUser : UserRec := { id := 1, email := "o@x.com", role := none }

/-- A user who neither owns the sample file nor has the admin role. -/
def strangerUser : UserRec := { id := 2, email := "s@x.com", role := some "user" }

/-- The sample file row, owned by user 1. -/
def sampleFile : FileRec :=
  { id := 7, owner_id := 1, filename := "a.txt", content_type := "text/plain",
    size := 3, s3_key := "k7", is_deleted := false }

/-- A files table holding exactly the sample file. -/
def sampleFiles : FilesTable := fun i => if i = 7 then some sampleFile else none

/-- A well-formed create request for the sample file. -/
def sampleCreate : ShareLinkCreate :=
  { file_id := 7, expiry_minutes := 60, max_downloads := some 2,
    password := none, requires_auth := false, allowed_email := none }

/-- The create request aimed at a file id with no row. -/
def missingCreate : ShareLinkCreate := { sampleCreate with file_id := 99 }

/- ------------------------------------------------------------------ -/
/- Helper lemmas shared by several claims.                             -/
/- ------------------------------------------------------------------ -/

/-- increment_download_count on a live entry: returns True, rewrites the
entry with the counter bumped under the same remaining TTL, and bumps the
database row when present. -/
theorem increment_hit (fs : FastStore) (db : LinksTable) (tok : String)
    (d : RedisData) (t : Int) (h : fs (redisKey tok) = some (d, t))
    (ht : 0 < t) :
    increment_download_count fs db tok =
      (true,
       fsSet fs (redisKey tok)
         { d with download_count := d.download_count + 1 } t,
       match db tok with
       | some l => dbSet db tok { l with download_count := l.download_count + 1 }
       | none => db) := by
  unfold increment_download_count fsGet fsTTL
  rw [h]
  simp only [Option.map_some']
  rw [if_neg (by omega)]

/-- The owner-or-admin test in create_share_link is passed by the file's
owner and by any admin. -/
theorem owner_guard_false (oid : Int) (user : UserRec)
    (h : oid = user.id ∨ user.role = some "admin") :
    (oid != user.id
      && (match user.role with | none => true | some r => r != "admin"))
      = false := by
  rcases h with h | h
  · simp [h]
  · rw [h]; simp

/-- The creator-or-admin test in revoke_share_link is passed by the link's
creator and by any admin. -/
theorem creator_guard_false (cid : Option Int) (user : UserRec)
    (h : cid = some user.id ∨ user.role = some "admin") :
    (cid != some user.id
      && (match user.role with | none => true | some r => r != "admin"))
      = false := by
  rcases h with h | h
  · simp [h]
  · rw [h]; simp

/- ------------------------------------------------------------------ -/
/- Claims.                                                             -/
/- ------------------------------------------------------------------ -/

/-- Claim C4, counterexample: a row with maxDownloads present and equal to
zero and downloadCount zero is reported valid by the code, while the
claim's predicate (quota absent or downloadCount strictly below it) says
invalid, so the stated biconditional fails. -/
theorem is_valid_claim_counterexample :
    ¬ (ShareLinkRec.is_valid zeroQuotaLink 0 = true ↔
        isValidClaim zeroQuotaLink 0) := by
  simp only [isValidClaim]
  decide

/-- Claim C4, amended: is_valid holds iff isActive is true, the current
time is not past expiresAt, and the quota is absent, or zero (Python
truthiness treats 0 like absent), or downloadCount is strictly below it. -/
theorem is_valid_characterization (l : ShareLinkRec) (now : Int) :
    ShareLinkRec.is_valid l now = true ↔
      (l.is_active = true ∧ now ≤ l.expires_at ∧
        (l.max_downloads = none ∨ l.max_downloads = some 0 ∨
          l.download_count < l.max_downloads.getD 0)) := by
  unfold ShareLinkRec.is_valid ShareLinkRec.is_expired
  rcases hmd : l.max_downloads with _ | m <;>
    cases ha : l.is_active <;> simp [ha, optIntTruthy, hmd]

/-- Claim C10: get_share_link_info reports not-found exactly when
validate_share_link reports the link invalid, and any snapshot it does
return carries is_valid = true. -/
theorem info_notfound_iff_invalid (now : Int) (fs : FastStore)
    (db : LinksTable) (tok : String) :
    (get_share_link_info now fs db tok = none ↔
      validate_share_link now fs db tok = none)
    ∧ ∀ info, get_share_link_info now fs db tok = some info →
        info.is_valid = true := by
  unfold get_share_link_info
  cases h : validate_share_link now fs db tok with
  | none => simp
  | some d =>
    refine ⟨by simp, ?_⟩
    intro info hinfo
    simp only [Option.some.injEq] at hinfo
    rw [← hinfo]

theorem info_notfound_iff_invalid_witness :
    get_share_link_info 0 sampleStore emptyTable "tok1" = some sampleInfo
    ∧ sampleInfo.is_valid = true :=
  ⟨by decide,
   (info_notfound_iff_invalid 0 sampleStore emptyTable "tok1").2 sampleInfo
     (by decide)⟩

/-- Claim C1, evaluation at the failing state: the fast-store entry present
at validation time has expired by the time the counter is incremented.
increment_download_count correctly returns false, but
download_via_share_link discards that result and still returns the file
info, i.e. the caller serves the file. -/
theorem download_ignores_failed_increment :
    (increment_download_count emptyStore emptyTable "tok1").1 = false
    ∧ (download_via_share_link 0 strEqCheck sampleStore emptyStore
        emptyTable "tok1" none none).1
      = Except.ok { file_id := 7, filename := "a.txt",
                    content_type := "text/plain", s3_key := "k7" } := by
  exact ⟨by decide, by rfl⟩

/-- Claim C5: a successful increment on a live entry reapplies the
remaining TTL it read (never the original full lifetime), changes only the
download_count field of the stored value, and touches no other key. -/
theorem increment_preserves_ttl_and_fields (fs : FastStore) (db : LinksTable)
    (tok : String) (d : RedisData) (t : Int)
    (hentry : fs (redisKey tok) = some (d, t)) (ht : 0 < t) :
    (increment_download_count fs db tok).1 = true
    ∧ (increment_download_count fs db tok).2.1 (redisKey tok)
        = some ({ d with download_count := d.download_count + 1 }, t)
    ∧ ∀ k, k ≠ redisKey tok →
        (increment_download_count fs db tok).2.1 k = fs k := by
  rw [increment_hit fs db tok d t hentry ht]
  refine ⟨rfl, ?_, ?_⟩
  · simp [fsSet]
  · intro k hk
    simp [fsSet, hk]

theorem increment_preserves_ttl_and_fields_witness :
    (increment_download_count sampleStore emptyTable "tok1").1 = true
    ∧ (increment_download_count sampleStore emptyTable "tok1").2.1
        (redisKey "tok1")
      = some ({ sampleData with
                  download_count := sampleData.download_count + 1 }, 600)
    ∧ (increment_download_count sampleStore emptyTable "tok1").2.1 "other"
      = sampleStore "other" := by
  have h := increment_preserves_ttl_and_fields sampleStore emptyTable "tok1"
    sampleData 600 (by decide) (by decide)
  exact ⟨h.1, h.2.1, h.2.2 "other" (by decide)⟩

/-- After n successful increments the entry still exists, with the counter
raised by n under the unchanged remaining TTL. -/
theorem incrementIter_entry (tok : String) (t : Int) (ht : 0 < t) (n : Nat) :
    ∀ (fs : FastStore) (db : LinksTable) (d : RedisData),
      fs (redisKey tok) = some (d, t) →
      (incrementIter tok n (fs, db)).1 (redisKey tok)
        = some ({ d with download_count := d.download_count + n }, t) := by
  induction n with
  | zero =>
    intro fs db d h
    simpa using h
  | succ n ih =>
    intro fs db d h
    rw [incrementIter]
    rw [increment_hit fs db tok d t h ht]
    have hnext : (fsSet fs (redisKey tok)
        { d with download_count := d.download_count + 1 } t) (redisKey tok)
        = some ({ d with download_count := d.download_count + 1 }, t) := by
      simp [fsSet]
    rw [ih _ _ _ hnext]
    have harith : d.download_count + 1 + (n : Int)
        = d.download_count + ((n + 1 : Nat) : Int) := by
      push_cast
      ring
    rw [harith]

/-- Claim C2: on a link whose entry carries maxDownloads = n (n at least 1)
and a zero counter, with positive remaining TTL, every one of the first n
recordAccess calls succeeds; afterwards the entry still exists in the fast
store, yet validate_share_link denies the next access because the quota is
checked independently of the TTL. -/
theorem quota_denies_after_max_accesses (now t : Int) (fs : FastStore)
    (db : LinksTable) (tok : String) (d : RedisData) (n : Nat)
    (hentry : fs (redisKey tok) = some (d, t)) (ht : 0 < t)
    (hmax : d.max_downloads = some (n : Int)) (hn : 1 ≤ n)
    (hcount : d.download_count = 0) :
    (∀ k, k < n →
      (increment_download_count (incrementIter tok k (fs, db)).1
        (incrementIter tok k (fs, db)).2 tok).1 = true)
    ∧ fsGet (incrementIter tok n (fs, db)).1 (redisKey tok)
        = some { d with download_count := (n : Int) }
    ∧ validate_share_link now (incrementIter tok n (fs, db)).1
        (incrementIter tok n (fs, db)).2 tok = none := by
  have hstate : ∀ k : Nat, (incrementIter tok k (fs, db)).1 (redisKey tok)
      = some ({ d with download_count := d.download_count + k }, t) :=
    fun k => incrementIter_entry tok t ht k fs db d hentry
  refine ⟨?_, ?_, ?_⟩
  · intro k _
    exact (increment_hit _ _ tok _ t (hstate k) ht) ▸ rfl
  · unfold fsGet
    rw [hstate n, hcount]
    simp
  · unfold validate_share_link fsGet
    rw [hstate n, hcount]
    simp only [Option.map_some', zero_add]
    rw [if_pos, if_pos]
    · simp [hmax]
    · simp [optIntTruthy, hmax]
      omega

theorem quota_denies_after_max_accesses_witness :
    fsGet (incrementIter "tok1" 2 (sampleStore, emptyTable)).1
        (redisKey "tok1")
      = some { sampleData with download_count := ((2 : Nat) : Int) }
    ∧ validate_share_link 0 (incrementIter "tok1" 2 (sampleStore, emptyTable)).1
        (incrementIter "tok1" 2 (sampleStore, emptyTable)).2 "tok1" = none := by
  have h := quota_denies_after_max_accesses 0 600 sampleStore emptyTable "tok1"
    sampleData 2 (by decide) (by decide) (by decide) (by decide) (by decide)
  exact ⟨h.2.1, h.2.2⟩

/-- Claim C3: on a snapshot that validates, the download checks run in the
fixed order password-gate, authentication requirement, allowed-email match,
and the first failing check fixes the denial: a caller supplying no
(truthy) password to a password-protected link gets password_required, a
wrong password gets invalid_password, and an unauthenticated caller on a
link with both requiresAuth and allowedEmail set gets auth_required rather
than forbidden. -/
theorem download_check_order (now : Int) (checkpw : String → String → Bool)
    (fsV fsI : FastStore) (db : LinksTable) (tok : String) (d : RedisData)
    (hval : validate_share_link now fsV db tok = some d) :
    (∀ pw user, optStrTruthy d.password_hash = true →
      optStrTruthy pw = false →
      (download_via_share_link now checkpw fsV fsI db tok pw user).1
        = Except.error DownloadDenial.passwordRequired)
    ∧ (∀ p user, optStrTruthy d.password_hash = true → (p != "") = true →
        checkpw p (d.password_hash.getD "") = false →
        (download_via_share_link now checkpw fsV fsI db tok (some p) user).1
          = Except.error DownloadDenial.invalidPassword)
    ∧ (optStrTruthy d.password_hash = false → d.requires_auth = true →
        optStrTruthy d.allowed_email = true →
        (download_via_share_link now checkpw fsV fsI db tok none none).1
          = Except.error DownloadDenial.authRequired) := by
  unfold download_via_share_link
  rw [hval]
  refine ⟨?_, ?_, ?_⟩
  · intro pw user hhash hpw
    simp [hhash, hpw]
  · intro p user hhash hp hcheck
    simp only [optStrTruthy] at hhash
    simp [hhash, hcheck, optStrTruthy, hp]
  · intro hhash hauth hemail
    simp [hhash, hauth]

theorem download_check_order_witness :
    (download_via_share_link 0 strEqCheck pwStore pwStore emptyTable "tokp"
        none none).1
      = Except.error DownloadDenial.passwordRequired
    ∧ (download_via_share_link 0 strEqCheck pwStore pwStore emptyTable "tokp"
        (some "bad") none).1
      = Except.error DownloadDenial.invalidPassword
    ∧ (download_via_share_link 0 strEqCheck authStore authStore emptyTable
        "toka" none none).1
      = Except.error DownloadDenial.authRequired := by
  have h1 := download_check_order 0 strEqCheck pwStore pwStore emptyTable
    "tokp" pwData (by decide)
  have h2 := download_check_order 0 strEqCheck authStore authStore emptyTable
    "toka" authData (by decide)
  exact ⟨h1.1 none none (by decide) (by decide),
         h1.2.1 "bad" none (by decide) (by decide) (by decide),
         h2.2.2 (by decide) (by decide) (by decide)⟩

/-- Claim C6: for a stored link and an authorized requester (creator or
admin), revoke succeeds, and revoking again succeeds with exactly the same
resulting state: the fast-store entry stays absent, the row stays inactive,
and the row is invalid at every time from the first revocation on. -/
theorem revoke_idempotent (fs : FastStore) (db : LinksTable) (tok : String)
    (user : UserRec) (l : ShareLinkRec) (hdb : db tok = some l)
    (hauth : l.created_by_id = some user.id ∨ user.role = some "admin") :
    revoke_share_link fs db tok user
      = (Except.ok true, fsDelete fs (redisKey tok),
         dbSet db tok { l with is_active := false })
    ∧ revoke_share_link (fsDelete fs (redisKey tok))
        (dbSet db tok { l with is_active := false }) tok user
      = (Except.ok true, fsDelete fs (redisKey tok),
         dbSet db tok { l with is_active := false })
    ∧ (fsDelete fs (redisKey tok)) (redisKey tok) = none
    ∧ (dbSet db tok { l with is_active := false }) tok
        = some { l with is_active := false }
    ∧ ∀ now, ShareLinkRec.is_valid { l with is_active := false } now
        = false := by
  have hg := creator_guard_false l.created_by_id user hauth
  have h1 : revoke_share_link fs db tok user
      = (Except.ok true, fsDelete fs (redisKey tok),
         dbSet db tok { l with is_active := false }) := by
    unfold revoke_share_link
    rw [hdb]
    simp [hg]
  refine ⟨h1, ?_, by simp [fsDelete], by simp [dbSet],
          fun now => by simp [ShareLinkRec.is_valid]⟩
  have hdb2 : (dbSet db tok { l with is_active := false }) tok
      = some { l with is_active := false } := by simp [dbSet]
  unfold revoke_share_link
  rw [hdb2]
  simp only [hg, Bool.false_eq_true, if_false]
  refine congrArg₂ Prod.mk rfl (congrArg₂ Prod.mk ?_ ?_)
  · funext k2
    by_cases hk : k2 = redisKey tok <;> simp [fsDelete, hk]
  · funext t2
    by_cases htk : t2 = tok <;> simp [dbSet, htk]

theorem revoke_idempotent_witness :
    revoke_share_link sampleStore sampleTable "tok1" creatorUser
      = (Except.ok true, fsDelete sampleStore (redisKey "tok1"),
         dbSet sampleTable "tok1" { sampleLink with is_active := false })
    ∧ ShareLinkRec.is_valid { sampleLink with is_active := false } 123
        = false := by
  have h := revoke_idempotent sampleStore sampleTable "tok1" creatorUser
    sampleLink (by decide) (Or.inl (by decide))
  exact ⟨h.1, h.2.2.2.2 123⟩

/-- Claim C7: create resolves the file first — an absent or soft-deleted
file yields the not-found error whoever asks — and only then checks
authorization: an existing file with a requester who neither owns it nor
holds the admin role yields the authorization error; in both cases the
returned stores are exactly the input ones. -/
theorem create_notfound_before_authorization (now : Int)
    (hashpw : String → String) (files : FilesTable) (fs : FastStore)
    (db : LinksTable) (token : String) (ld : ShareLinkCreate)
    (user : UserRec) :
    (activeFile files ld.file_id = none →
      create_share_link now hashpw files fs db token ld user
        = (Except.error CreateError.fileNotFound, fs, db))
    ∧ ∀ f, activeFile files ld.file_id = some f →
        f.owner_id ≠ user.id → user.role ≠ some "admin" →
        create_share_link now hashpw files fs db token ld user
          = (Except.error CreateError.notPermitted, fs, db) := by
  constructor
  · intro h
    unfold create_share_link
    rw [h]
  · intro f hf ho hr
    unfold create_share_link
    rw [hf]
    have hg : (f.owner_id != user.id
        && (match user.role with | none => true | some r => r != "admin"))
        = true := by
      rcases hrole : user.role with _ | r
      · simp [bne_iff_ne, ho]
      · have hr2 : r ≠ "admin" := by
          intro he
          exact hr (by rw [hrole, he])
        simp [bne_iff_ne, ho, hr2]
    simp [hg]

theorem create_notfound_before_authorization_witness :
    create_share_link 0 strHash sampleFiles emptyStore emptyTable "tok1"
        missingCreate strangerUser
      = (Except.error CreateError.fileNotFound, emptyStore, emptyTable)
    ∧ create_share_link 0 strHash sampleFiles emptyStore emptyTable "tok1"
        sampleCreate strangerUser
      = (Except.error CreateError.notPermitted, emptyStore, emptyTable) :=
  ⟨(create_notfound_before_authorization 0 strHash sampleFiles emptyStore
      emptyTable "tok1" missingCreate strangerUser).1 (by decide),
   (create_notfound_before_authorization 0 strHash sampleFiles emptyStore
      emptyTable "tok1" sampleCreate strangerUser).2 sampleFile (by decide)
      (by decide) (by decide)⟩

/-- Claim C8: a create request whose lifetime lies outside [1, 43200] or
whose maxDownloads is present but below 1 is rejected with the validation
error by the schema layer, before the service runs, leaving both stores
exactly as they were. -/
theorem create_validation_precedes_stores (now : Int)
    (hashpw : String → String) (files : FilesTable) (fs : FastStore)
    (db : LinksTable) (token : String) (ld : ShareLinkCreate) (user : UserRec)
    (hbad : ld.expiry_minutes < 1 ∨ 43200 < ld.expiry_minutes
      ∨ ∃ m, ld.max_downloads = some m ∧ m < 1) :
    create_share_link_endpoint now hashpw files fs db token ld user
      = (Except.error CreateError.validationFailed, fs, db) := by
  have hv : shareLinkCreateValid ld = false := by
    unfold shareLinkCreateValid
    rcases hbad with h | h | ⟨m, hm, hm1⟩
    · rw [decide_eq_false (show ¬ (1 ≤ ld.expiry_minutes) by omega)]
      simp
    · rw [decide_eq_false (show ¬ (ld.expiry_minutes ≤ 43200) by omega)]
      simp
    · rw [hm]
      rw [show (match some m with
            | none => true
            | (some n : Option Int) => decide (1 ≤ n))
          = decide (1 ≤ m) from rfl]
      rw [decide_eq_false (show ¬ (1 ≤ m) by omega)]
      simp
  unfold create_share_link_endpoint
  rw [if_pos hv]

theorem create_validation_precedes_stores_witness :
    create_share_link_endpoint 0 strHash sampleFiles emptyStore emptyTable
      "tok1" { sampleCreate with expiry_minutes := 0 } strangerUser
      = (Except.error CreateError.validationFailed, emptyStore, emptyTable) :=
  create_validation_precedes_stores 0 strHash sampleFiles emptyStore
    emptyTable "tok1" { sampleCreate with expiry_minutes := 0 } strangerUser
    (Or.inl (by decide))

/-- Claim C9: a successful create returns exactly the descriptor holding
the token, the constructed share URL, the expiry timestamp and the
password-presence flag (with the other response fields), and that
descriptor is unchanged under replacing the supplied password by any other
of the same presence and the hashing function by any other — so it carries
neither the plaintext password nor the hash. -/
theorem create_descriptor_excludes_password (now : Int)
    (hashpw : String → String) (files : FilesTable) (fs : FastStore)
    (db : LinksTable) (token : String) (ld : ShareLinkCreate)
    (user : UserRec) (f : FileRec)
    (hfile : activeFile files ld.file_id = some f)
    (hown : f.owner_id = user.id ∨ user.role = some "admin") :
    (create_share_link now hashpw files fs db token ld user).1
      = Except.ok
        { token := token,
          share_url := "/api/v1/share/" ++ token ++ "/download",
          file_id := f.id, filename := f.filename,
          expires_at := now + ld.expiry_minutes * 60,
          expires_in_minutes := ld.expiry_minutes,
          max_downloads := ld.max_downloads,
          has_password := optStrTruthy ld.password,
          requires_auth := ld.requires_auth, created_at := now }
    ∧ ∀ (hashpw2 : String → String) (pw2 : Option String),
        optStrTruthy pw2 = optStrTruthy ld.password →
        (create_share_link now hashpw2 files fs db token
            { ld with password := pw2 } user).1
          = (create_share_link now hashpw files fs db token ld user).1 := by
  have hg := owner_guard_false f.owner_id user hown
  constructor
  · unfold create_share_link
    rw [hfile]
    simp only [hg, Bool.false_eq_true, if_false]
    cases hpw : optStrTruthy ld.password <;> simp [hpw]
  · intro hashpw2 pw2 hpw2
    unfold create_share_link
    dsimp only
    rw [hfile]
    simp only [hg, Bool.false_eq_true, if_false]
    rw [hpw2]
    cases hpw : optStrTruthy ld.password <;> simp [hpw]

theorem create_descriptor_excludes_password_witness :
    (create_share_link 0 strHash sampleFiles emptyStore emptyTable "tok1"
        sampleCreate ownerUser).1
      = Except.ok
        { token := "tok1", share_url := "/api/v1/share/tok1/download",
          file_id := 7, filename := "a.txt", expires_at := 3600,
          expires_in_minutes := 60, max_downloads := some 2,
          has_password := false, requires_auth := false, created_at := 0 }
    ∧ (create_share_link 0 strHash2 sampleFiles emptyStore emptyTable "tok1"
          { sampleCreate with password := none } ownerUser).1
      = (create_share_link 0 strHash sampleFiles emptyStore emptyTable "tok1"
          sampleCreate ownerUser).1 := by
  have h := create_descriptor_excludes_password 0 strHash sampleFiles
    emptyStore emptyTable "tok1" sampleCreate ownerUser sampleFile
    (by decide) (Or.inl (by decide))
  refine ⟨?_, h.2 strHash2 none (by decide)⟩
  rw [h.1]
  rfl

end SecureFileShare
